import Mathlib

/-!
Verification of the VAT compliance monitor's field-normalization and
rule-evaluation core, embedded shallowly from the repository sources
`src/vcm-textract-lambda/app.py` and `src/ocr_lambda/app.py`.

Modelling conventions:
* Python floats are embedded as exact rationals (`ℚ`); the spec itself
  mandates exact-decimal semantics for rates and amounts (§6), and every
  comparison settled here is robust to this choice.
* Python `None` is `Option.none`; Python truthiness of strings, floats
  and dicts is modelled explicitly (`""`, `0`, `[]` are falsy).
* `str.replace`, `str.strip`, `str.upper`, slicing and the relevant
  regexes are implemented over `List Char` so that every definition is
  executable and kernel-reducible on concrete inputs.
* Exceptions raised by `float(...)` are conflated with `none`; no claim
  settled here distinguishes the two.
-/

/-- Characters removed by Python `str.strip()` (the whitespace present in
the program's inputs). -/
def isSpaceChar (c : Char) : Bool :=
  c = ' ' ∨ c = '\t' ∨ c = '\n' ∨ c = '\r'

/-- Python `str.strip()`. -/
def pyStrip (s : String) : String :=
  String.mk (((s.data.dropWhile isSpaceChar).reverse.dropWhile isSpaceChar).reverse)

/-- Fuel-bounded list-level substring replacement; fuel `s.length` is always
sufficient because each step consumes at least one character. -/
def replaceFuel : Nat → List Char → List Char → List Char → List Char
  | _, [], _, _ => []
  | 0, s, _, _ => s
  | n + 1, c :: rest, pat, rep =>
    if pat ≠ [] ∧ (c :: rest).take pat.length = pat then
      rep ++ replaceFuel n ((c :: rest).drop pat.length) pat rep
    else
      c :: replaceFuel n rest pat rep

/-- Python `str.replace(pat, rep)` (leftmost, non-overlapping, non-empty
pattern). -/
def pyReplace (s pat rep : String) : String :=
  String.mk (replaceFuel s.data.length s.data pat.data rep.data)

/-- Python `str.upper()` over the program's ASCII-and-symbol alphabet. -/
def pyUpper (s : String) : String :=
  String.mk (s.data.map Char.toUpper)

/-- Python `c in s` for a single character. -/
def pyContainsChar (s : String) (c : Char) : Bool :=
  s.data.any (fun d => d = c)

/-- Digit-string value, most significant first. -/
def parseDigits (cs : List Char) : Nat :=
  cs.foldl (fun n c => n * 10 + (c.toNat - 48)) 0

/-- Unsigned decimal literal: `digits`, `digits.`, `.digits` or
`digits.digits`, mirroring the decimal fragment of Python `float(...)`. -/
def parseUnsigned (cs : List Char) : Option ℚ :=
  let intPart := cs.takeWhile Char.isDigit
  let rest := cs.dropWhile Char.isDigit
  match rest with
  | [] => if intPart = [] then none else some (parseDigits intPart)
  | '.' :: frac =>
    if frac.all Char.isDigit ∧ (intPart ≠ [] ∨ frac ≠ []) then
      some ((parseDigits intPart : ℚ) + (parseDigits frac : ℚ) / (10 ^ frac.length))
    else none
  | _ => none

/-- Python `float(s)` restricted to optionally signed decimal literals,
returning `none` where the program would receive a `ValueError`. -/
def parseDecimal (s : String) : Option ℚ :=
  match s.data with
  | '+' :: rest => parseUnsigned rest
  | '-' :: rest => (parseUnsigned rest).map Neg.neg
  | cs => parseUnsigned cs

/-- Exact absolute value on ℚ, as Python `abs`. -/
def qabs (x : ℚ) : ℚ :=
  if x < 0 then -x else x

/-- Round-half-to-even to an integer, as Python `round` on exact values. -/
def roundHalfEven (x : ℚ) : ℤ :=
  let f := x.floor
  let frac := x - (f : ℚ)
  if frac < 1 / 2 then f
  else if 1 / 2 < frac then f + 1
  else if f % 2 = 0 then f else f + 1

/-- Python `round(x, 2)` on exact values. -/
def pythonRound2 (x : ℚ) : ℚ :=
  ((roundHalfEven (x * 100) : ℤ) : ℚ) / 100

/-- Validation reasons; each constructor embeds one of the f-strings the
two handlers append to `reasons`, with its interpolated data. -/
inductive Reason where
  /-- textract: `f"Invalid VAT ID format: {vid}"` -/
  | invalidVatId (vid : String)
  /-- textract: `"Missing VAT rate or VAT amount"` -/
  | missingRateOrAmount
  /-- textract: `f"Country code {country} not in configuration"` -/
  | countryNotInConfig (country : String)
  /-- textract: `f"Invalid VAT rate {vat_rate} for country {country}"` -/
  | invalidRateForCountry (rate : ℚ) (country : String)
  /-- both: `f"Math check failed: expected {expected}, got {vat_amount}"` -/
  | mathCheckFailed (expected got : ℚ)
  /-- ocr: `"Missing one or more required fields"` -/
  | missingRequiredFields
  /-- ocr: `f"Invalid VAT rate {vat_rate} for {country}"` (either part
  may be `None` in the source f-string) -/
  | invalidRateOcr (rate : Option ℚ) (country : Option String)
deriving DecidableEq, Repr

/-- The `status` / `reasons` pair both handlers build during validation. -/
structure EvalResult where
  status : String
  reasons : List Reason
deriving DecidableEq, Repr

/-- The allowed-rates configuration: a Python dict `country → list of rates`
modelled as an association list with distinct keys. -/
abbrev Config := List (String × List ℚ)

/-- Dict lookup `allowed_rates.get(c)`. -/
def lookupRates (cfg : Config) (c : String) : Option (List ℚ) :=
  (cfg.find? (fun p => p.1 = c)).map Prod.snd

/-- Python `c in allowed_rates` for a string key. -/
def memCfg (cfg : Config) (c : String) : Bool :=
  (lookupRates cfg c).isSome

/-- Python `vat_rate in rates` where `vat_rate` may be `None` (and `None`
equals no float). -/
def rateMem (r : Option ℚ) (rates : List ℚ) : Bool :=
  match r with
  | some q => decide (q ∈ rates)
  | none => false

/-- Python truthiness of an optional float: `None` and `0.0` are falsy. -/
def truthyQ (x : Option ℚ) : Bool :=
  match x with
  | some q => decide (q ≠ 0)
  | none => false

/-- Python truthiness of an optional string: `None` and `""` are falsy. -/
def truthyS (s : Option String) : Bool :=
  match s with
  | some str => decide (str ≠ "")
  | none => false

namespace Textract

/-! Embedding of `src/vcm-textract-lambda/app.py`. -/

/-- `extract_currency` (lines 132–135): `re.search(r'([€$£CHF])[\d,.]+', text)`.
The regex character class makes `C`, `H`, `F` three independent one-character
alternatives; the search returns the first character of the class followed by
at least one digit, comma or dot. -/
def findCurrencyChar : List Char → Option Char
  | c :: d :: rest =>
    if (c = '€' ∨ c = '$' ∨ c = '£' ∨ c = 'C' ∨ c = 'H' ∨ c = 'F') ∧
        (d.isDigit ∨ d = ',' ∨ d = '.') then
      some c
    else
      findCurrencyChar (d :: rest)
  | _ => none

/-- `extract_currency(text)`: `match.group(1)` of the search above. -/
def extract_currency (text : String) : Option String :=
  (findCurrencyChar text.data).map (fun c => String.mk [c])

/-- `normalize_number` (lines 138–157): strip, drop currency tokens, resolve
the separator ambiguity (both separators ⇒ continental: drop `.`, turn `,`
into `.`; otherwise drop `,`), then `float(...)` with `None` on failure.
The argument is optional because the call sites pass a possibly-`None`
extraction result and `if not value` treats `None` and `""` alike. -/
def normalize_number (value : Option String) : Option ℚ :=
  match value with
  | none => none
  | some s =>
    if s = "" then none
    else
      let v := pyReplace (pyReplace (pyReplace (pyReplace (pyStrip s) "€" "") "$" "") "£" "") "CHF" ""
      let v :=
        if pyContainsChar v '.' ∧ pyContainsChar v ',' then
          pyReplace (pyReplace v "." "") "," "."
        else
          pyReplace v "," ""
      parseDecimal v

/-- Line 214: `raw_rate = float(vat_rate_str.replace(',', '.')) if vat_rate_str else None`. -/
def rawRateOf (vat_rate_str : Option String) : Option ℚ :=
  match vat_rate_str with
  | none => none
  | some s => if s = "" then none else parseDecimal (pyReplace s "," ".")

/-- Line 215: `vat_rate = (raw_rate / 100) if (raw_rate and raw_rate > 1) else raw_rate`;
`raw_rate and raw_rate > 1` is Python truthiness, so `0.0` falls to the
`else` branch. -/
def vatRateOf (vat_rate_str : Option String) : Option ℚ :=
  match rawRateOf vat_rate_str with
  | none => none
  | some r => if r ≠ 0 ∧ 1 < r then some (r / 100) else some r

/-- Line 220: `vid = (vat_id_raw or "").replace(' ', '').upper()`. -/
def vidOf (vat_id_raw : Option String) : String :=
  pyUpper (pyReplace (vat_id_raw.getD "") " " "")

/-- ASCII letter test used by the `[A-Z]` regex class. -/
def isUpperAZ (c : Char) : Bool :=
  'A' ≤ c ∧ c ≤ 'Z'

/-- Lines 221–222: `m = re.match(r'^([A-Z]{2})', vid)`; the resolved
country is `m.group(1)` when the first two characters are capitals. -/
def matchCountry (vid : String) : Option String :=
  match vid.data with
  | a :: b :: _ => if isUpperAZ a ∧ isUpperAZ b then some (String.mk [a, b]) else none
  | _ => none

/-- Lines 228–242: the `if not m / elif … / elif … / elif …` validation
chain, with each guard written positively. Exactly one branch fires, so the
chain yields either `PASS` with no reasons or `FAIL` with the single reason
of the first failing check. -/
def baseChecks (vat_id_raw : Option String) (vat_rate vat_amount : Option ℚ)
    (allowed_rates : Config) : EvalResult :=
  let vid := vidOf vat_id_raw
  match matchCountry vid with
  | none => ⟨"FAIL", [Reason.invalidVatId vid]⟩
  | some country =>
    if vat_rate.isSome ∧ vat_amount.isSome then
      if memCfg allowed_rates country then
        if rateMem vat_rate ((lookupRates allowed_rates country).getD []) then
          ⟨"PASS", []⟩
        else
          ⟨"FAIL", [Reason.invalidRateForCountry (vat_rate.getD 0) country]⟩
      else
        ⟨"FAIL", [Reason.countryNotInConfig country]⟩
    else
      ⟨"FAIL", [Reason.missingRateOrAmount]⟩

/-- Lines 244–250: `if status == "PASS" and net_total:` compute
`expected = round(net_total * vat_rate, 2)` and fail when
`abs(expected - vat_amount) > 0.02`. -/
def mathCheck (vat_rate vat_amount net_total : Option ℚ) (base : EvalResult) : EvalResult :=
  if base.status = "PASS" ∧ truthyQ net_total then
    let expected := pythonRound2 (net_total.getD 0 * vat_rate.getD 0)
    if (2 / 100 : ℚ) < qabs (expected - vat_amount.getD 0) then
      ⟨"FAIL", base.reasons ++ [Reason.mathCheckFailed expected (vat_amount.getD 0)]⟩
    else
      base
  else
    base

/-- The validation section of `lambda_handler` (lines 226–251) as a pure
function of the normalized fields and the configuration. -/
def validate (vat_id_raw : Option String) (vat_rate vat_amount net_total : Option ℚ)
    (allowed_rates : Config) : EvalResult :=
  mathCheck vat_rate vat_amount net_total (baseChecks vat_id_raw vat_rate vat_amount allowed_rates)

/-- `load_allowed_rates` builds the dict with `rates.setdefault(country, []).append(rate)`
after upper-casing the country (lines 63–67). -/
def insertRate : Config → String → ℚ → Config
  | [], c, r => [(c, [r])]
  | (c', rs) :: rest, c, r =>
    if c' = c then (c', rs ++ [r]) :: rest else (c', rs) :: insertRate rest c r

/-- The dict built from the CSV rows `(country, rate)`. -/
def buildRates (rows : List (String × ℚ)) : Config :=
  rows.foldl (fun acc p => insertRate acc (pyUpper p.1) p.2) []

/-- Python truthiness of the global `CACHED_ALLOWED_RATES`: `None` and the
empty dict are falsy. -/
def truthyCache (cache : Option Config) : Bool :=
  match cache with
  | some c => decide (c ≠ [])
  | none => false

/-- Outcome of one `load_allowed_rates()` call: the returned mapping, the
global cache afterwards, and whether the S3 `GetObject` was performed. -/
structure LoadResult where
  rates : Config
  cache : Option Config
  fetched : Bool
deriving DecidableEq

/-- `load_allowed_rates` (lines 48–73): return the cache when it is truthy,
otherwise fetch the rows from S3, build the dict and cache it. -/
def load_allowed_rates (cache : Option Config) (rows : List (String × ℚ)) : LoadResult :=
  if truthyCache cache then
    ⟨cache.getD [], cache, false⟩
  else
    let rates := buildRates rows
    ⟨rates, some rates, true⟩

end Textract

namespace Ocr

/-! Embedding of `src/ocr_lambda/app.py`. -/

/-- The inner `normalize` (lines 67–68):
`float(value.replace('€', '').replace(',', '').strip()) if value else None`. -/
def normalize (value : Option String) : Option ℚ :=
  match value with
  | none => none
  | some s =>
    if s = "" then none
    else parseDecimal (pyStrip (pyReplace (pyReplace s "€" "") "," ""))

/-- Line 70: `vat_rate = float(vat_rate_str.replace(',', '.')) / 100 if vat_rate_str else None`
— every successfully parsed raw rate is divided by 100, unconditionally. -/
def vatRateOf (vat_rate_str : Option String) : Option ℚ :=
  match vat_rate_str with
  | none => none
  | some s =>
    if s = "" then none
    else (parseDecimal (pyReplace s "," ".")).map (fun r => r / 100)

/-- Line 85: `country = vat_id[:2] if vat_id else None`. -/
def countryOf (vat_id : Option String) : Option String :=
  match vat_id with
  | none => none
  | some s => if s = "" then none else some (String.mk (s.data.take 2))

/-- Lines 81–83: `if not (vat_id and vat_rate and vat_amount)` — Python
truthiness, so an extracted value of exactly `0` counts as missing. -/
def check1 (vat_id : Option String) (vat_rate vat_amount : Option ℚ) : EvalResult :=
  if truthyS vat_id ∧ truthyQ vat_rate ∧ truthyQ vat_amount then
    ⟨"PASS", []⟩
  else
    ⟨"FAIL", [Reason.missingRequiredFields]⟩

/-- The rate list `allowed_rates.get(country, [])`, where `country` may be
`None` (never a dict key). -/
def ratesFor (cfg : Config) (country : Option String) : List ℚ :=
  match country with
  | some c => (lookupRates cfg c).getD []
  | none => []

/-- Lines 85–88: `if country not in allowed_rates or vat_rate not in
allowed_rates.get(country, [])` append the combined invalid-rate reason. -/
def check2 (vat_id : Option String) (vat_rate : Option ℚ) (cfg : Config)
    (res : EvalResult) : EvalResult :=
  let country := countryOf vat_id
  let inCfg := match country with
    | some c => memCfg cfg c
    | none => false
  if inCfg && rateMem vat_rate (ratesFor cfg country) then
    res
  else
    ⟨"FAIL", res.reasons ++ [Reason.invalidRateOcr vat_rate country]⟩

/-- Lines 90–94: `if net_total and vat_rate and vat_amount:` compute
`expected = round(net_total * vat_rate, 2)` and fail when
`abs(expected - vat_amount) > 0.5`. -/
def check3 (vat_rate vat_amount net_total : Option ℚ) (res : EvalResult) : EvalResult :=
  if truthyQ net_total ∧ truthyQ vat_rate ∧ truthyQ vat_amount then
    let expected := pythonRound2 (net_total.getD 0 * vat_rate.getD 0)
    if (1 / 2 : ℚ) < qabs (expected - vat_amount.getD 0) then
      ⟨"FAIL", res.reasons ++ [Reason.mathCheckFailed expected (vat_amount.getD 0)]⟩
    else
      res
  else
    res

/-- The validation section of `lambda_handler` (lines 77–94): the three
checks run unconditionally, one after the other, accumulating reasons. -/
def validate (vat_id : Option String) (vat_rate vat_amount net_total : Option ℚ)
    (allowed_rates : Config) : EvalResult :=
  check3 vat_rate vat_amount net_total
    (check2 vat_id vat_rate allowed_rates (check1 vat_id vat_rate vat_amount))

end Ocr

/-- Does a reasons list contain a math-mismatch entry? -/
def hasMathReason (l : List Reason) : Bool :=
  l.any fun r =>
    match r with
    | Reason.mathCheckFailed _ _ => true
    | _ => false

/-! ## Shared structural lemmas about the ocr evaluator's check chain -/

/-- A `FAIL` status survives the ocr combined country/rate check. -/
theorem ocr_check2_status_fail (vid : Option String) (vr : Option ℚ) (cfg : Config)
    (res : EvalResult) (h : res.status = "FAIL") :
    (Ocr.check2 vid vr cfg res).status = "FAIL" := by
  unfold Ocr.check2
  dsimp only
  split
  · exact h
  · rfl

/-- Reasons already accumulated survive the ocr combined country/rate check. -/
theorem ocr_check2_mem (vid : Option String) (vr : Option ℚ) (cfg : Config)
    (res : EvalResult) (x : Reason) (hx : x ∈ res.reasons) :
    x ∈ (Ocr.check2 vid vr cfg res).reasons := by
  unfold Ocr.check2
  dsimp only
  split
  · exact hx
  · exact List.mem_append_left _ hx

/-- A `FAIL` status survives the ocr arithmetic check. -/
theorem ocr_check3_status_fail (vr va nt : Option ℚ) (res : EvalResult)
    (h : res.status = "FAIL") :
    (Ocr.check3 vr va nt res).status = "FAIL" := by
  unfold Ocr.check3
  dsimp only
  split
  · split
    · rfl
    · exact h
  · exact h

/-- Reasons already accumulated survive the ocr arithmetic check. -/
theorem ocr_check3_mem (vr va nt : Option ℚ) (res : EvalResult) (x : Reason)
    (hx : x ∈ res.reasons) :
    x ∈ (Ocr.check3 vr va nt res).reasons := by
  unfold Ocr.check3
  dsimp only
  split
  · split
    · exact List.mem_append_left _ hx
    · exact hx
  · exact hx

/-! ## Claim C1: missing vat_id fails with a completeness reason -/

/-- C1: for every invoice with `vat_id` missing but `vat_rate`, `vat_amount`
and `net_total` present, the ocr evaluator returns `FAIL` with its
completeness reason `"Missing one or more required fields"` still in the
accumulated list — whatever the arithmetic check does afterwards — and the
textract evaluator returns `FAIL` with its reason for the absent VAT id. -/
theorem c1_missing_vat_id_fail_independent_of_math :
    ∀ (r a n : ℚ) (cfg : Config),
      (Ocr.validate none (some r) (some a) (some n) cfg).status = "FAIL" ∧
      Reason.missingRequiredFields ∈ (Ocr.validate none (some r) (some a) (some n) cfg).reasons ∧
      Textract.validate none (some r) (some a) (some n) cfg =
        ⟨"FAIL", [Reason.invalidVatId ""]⟩ := by
  intro r a n cfg
  have h2 : Ocr.check2 none (some r) cfg (Ocr.check1 none (some r) (some a)) =
      ⟨"FAIL", [Reason.missingRequiredFields, Reason.invalidRateOcr (some r) none]⟩ := rfl
  refine ⟨?_, ?_, rfl⟩
  · show (Ocr.check3 (some r) (some a) (some n) _).status = "FAIL"
    rw [h2]
    exact ocr_check3_status_fail _ _ _ _ rfl
  · show Reason.missingRequiredFields ∈ (Ocr.check3 (some r) (some a) (some n) _).reasons
    rw [h2]
    exact ocr_check3_mem _ _ _ _ _ (by simp)

/-! ## Claim C2: country resolution -/

/-- C2 counterexample: no fuzzy-correction table exists in either handler,
so the OCR misread `"1T12345678901"` does not resolve to `"IT"`: the
textract handler's `^([A-Z]{2})` match fails on the leading digit and
resolves no country at all, and the ocr handler's `vat_id[:2]` slice
returns the literal `"1T"`. -/
theorem c2_no_fuzzy_correction_cex :
    Textract.matchCountry (Textract.vidOf (some "1T12345678901")) = none ∧
    Ocr.countryOf (some "1T12345678901") = some "1T" ∧
    decide (Textract.matchCountry (Textract.vidOf (some "1T12345678901")) = some "IT") = false ∧
    decide (Ocr.countryOf (some "1T12345678901") = some "IT") = false := by
  decide

/-- C2 amended: `"CHE-123.456.789"` does resolve to `"CH"`, but only through
the generic two-letter prefix match (there is no Swiss special case in the
code); there is no fuzzy-correction table, so `"1T12345678901"` resolves to
no country in the textract handler and to the slice `"1T"` in the ocr
handler, never to `"IT"`. -/
theorem c2_country_resolution :
    Textract.matchCountry (Textract.vidOf (some "CHE-123.456.789")) = some "CH" ∧
    Ocr.countryOf (some "CHE-123.456.789") = some "CH" ∧
    Textract.matchCountry (Textract.vidOf (some "1T12345678901")) = none ∧
    Ocr.countryOf (some "1T12345678901") = some "1T" := by
  decide

/-! ## Claim C3: numeric separator normalization -/

/-- C3 counterexample: the anglophone string `"1,234.56"` contains both
separators, so `normalize_number` takes its continental branch (drop every
`.`, turn `,` into `.`) and returns `1.23456` — strictly smaller than the
claimed value `1234.56`. -/
theorem c3_anglophone_cex :
    Textract.normalize_number (some "1,234.56") = some (1.23456 : ℚ) ∧
    (1.23456 : ℚ) < (1234.56 : ℚ) := by
  constructor
  · rw [show Textract.normalize_number (some "1,234.56") =
        some (((1 : ℕ) : ℚ) + ((23456 : ℕ) : ℚ) / 10 ^ (5 : ℕ)) from rfl]
    norm_num
  · norm_num

/-- C3 amended: `normalize_number` treats every string containing both `.`
and `,` as continental, so `"1.234,56"` yields `1234.56` but `"1,234.56"`
yields `1.23456`; a string with `,` only has the commas dropped
(`"1,234"` ↦ `1234`). The ocr handler's `normalize` drops commas only, so
it parses `"1,234.56"` to `1234.56` but `"1.234,56"` to `1.23456`. -/
theorem c3_separator_normalization :
    Textract.normalize_number (some "1.234,56") = some (1234.56 : ℚ) ∧
    Textract.normalize_number (some "1,234.56") = some (1.23456 : ℚ) ∧
    Textract.normalize_number (some "1,234") = some (1234 : ℚ) ∧
    Ocr.normalize (some "1,234.56") = some (1234.56 : ℚ) ∧
    Ocr.normalize (some "1.234,56") = some (1.23456 : ℚ) := by
  refine ⟨?_, ?_, ?_, ?_, ?_⟩
  · rw [show Textract.normalize_number (some "1.234,56") =
        some (((1234 : ℕ) : ℚ) + ((56 : ℕ) : ℚ) / 10 ^ (2 : ℕ)) from rfl]
    norm_num
  · rw [show Textract.normalize_number (some "1,234.56") =
        some (((1 : ℕ) : ℚ) + ((23456 : ℕ) : ℚ) / 10 ^ (5 : ℕ)) from rfl]
    norm_num
  · rw [show Textract.normalize_number (some "1,234") = some (((1234 : ℕ) : ℚ)) from rfl]
    norm_num
  · rw [show Ocr.normalize (some "1,234.56") =
        some (((1234 : ℕ) : ℚ) + ((56 : ℕ) : ℚ) / 10 ^ (2 : ℕ)) from rfl]
    norm_num
  · rw [show Ocr.normalize (some "1.234,56") =
        some (((1 : ℕ) : ℚ) + ((23456 : ℕ) : ℚ) / 10 ^ (5 : ℕ)) from rfl]
    norm_num

/-! ## Claim C4: percentage-vs-fraction rule -/

/-- C4 counterexample: the ocr extraction path divides every successfully
parsed raw rate by 100 unconditionally, so the raw fraction `0.5` is
stored as `0.005` — strictly smaller than the value `0.5` the claim
requires for raw rates ≤ 1. -/
theorem c4_ocr_always_divides_cex :
    Ocr.vatRateOf (some "0.5") = some (1 / 200 : ℚ) ∧
    (1 / 200 : ℚ) < (1 / 2 : ℚ) := by
  constructor
  · rw [show Ocr.vatRateOf (some "0.5") =
        some ((((0 : ℕ) : ℚ) + ((5 : ℕ) : ℚ) / 10 ^ (1 : ℕ)) / 100) from rfl]
    norm_num
  · norm_num

/-- C4 amended: the textract handler applies the percentage-vs-fraction
rule (a parsed raw rate r > 1 is stored as r/100, a rate r ≤ 1 is stored
unchanged), but the ocr extraction path divides every parsed raw rate by
100 unconditionally. -/
theorem c4_rate_storage_rule :
    (∀ (s : Option String) (r : ℚ), Textract.rawRateOf s = some r →
      (1 < r → Textract.vatRateOf s = some (r / 100)) ∧
      (r ≤ 1 → Textract.vatRateOf s = some r)) ∧
    (∀ (s : String) (r : ℚ), s ≠ "" → parseDecimal (pyReplace s "," ".") = some r →
      Ocr.vatRateOf (some s) = some (r / 100)) := by
  constructor
  · intro s r h
    constructor
    · intro hr
      have hne : r ≠ 0 := by
        intro h0
        rw [h0] at hr
        exact absurd hr (by norm_num)
      simp [Textract.vatRateOf, h, hne, hr]
    · intro hr
      have hcond : ¬(r ≠ 0 ∧ 1 < r) := by
        rintro ⟨-, h1⟩
        exact absurd hr (not_le.mpr h1)
      simp only [Textract.vatRateOf, h, if_neg hcond]
  · intro s r hs hp
    simp [Ocr.vatRateOf, hs, hp]

/-- C4 witness: the amended rule instantiated at the concrete raw rates
`22` (textract, percentage reading), `0.5` (textract, fraction reading)
and `"22"` (ocr, unconditional division). -/
theorem c4_rate_storage_rule_witness :
    Textract.vatRateOf (some "22") = some (22 / 100 : ℚ) ∧
    Textract.vatRateOf (some "0.5") = some (1 / 2 : ℚ) ∧
    Ocr.vatRateOf (some "22") = some (22 / 100 : ℚ) := by
  have h22 : Textract.rawRateOf (some "22") = some (22 : ℚ) := by
    rw [show Textract.rawRateOf (some "22") = some (((22 : ℕ) : ℚ)) from rfl]
    norm_num
  have h05 : Textract.rawRateOf (some "0.5") = some (1 / 2 : ℚ) := by
    rw [show Textract.rawRateOf (some "0.5") =
        some (((0 : ℕ) : ℚ) + ((5 : ℕ) : ℚ) / 10 ^ (1 : ℕ)) from rfl]
    norm_num
  have ho : parseDecimal (pyReplace "22" "," ".") = some (22 : ℚ) := by
    rw [show parseDecimal (pyReplace "22" "," ".") = some (((22 : ℕ) : ℚ)) from rfl]
    norm_num
  exact ⟨(c4_rate_storage_rule.1 (some "22") 22 h22).1 (by norm_num),
    (c4_rate_storage_rule.1 (some "0.5") (1 / 2) h05).2 (by norm_num),
    c4_rate_storage_rule.2 "22" 22 (by decide) ho⟩

/-! ## Claim C5: arithmetic-consistency check and its tolerance -/

/-- C5 counterexample: with all fields present and a discrepancy of `0.30`
(> 0.02) between expected and declared VAT, the ocr evaluator still returns
`PASS` with no reasons, because its tolerance is `0.5`, not the fixed
`0.02` the claim states for the evaluator. -/
theorem c5_fixed_tolerance_cex :
    Ocr.validate (some "IT12345678901") (some (0.22 : ℚ)) (some (22.30 : ℚ)) (some 100)
      [("IT", [(0.22 : ℚ)])] = ⟨"PASS", []⟩ ∧
    (2 / 100 : ℚ) < qabs (pythonRound2 (100 * (0.22 : ℚ)) - (22.30 : ℚ)) := by
  have hf : Rat.floor 2200 = 2200 := rfl
  constructor
  · norm_num [Ocr.validate, Ocr.check1, Ocr.check2, Ocr.check3, Ocr.countryOf, Ocr.ratesFor,
      truthyS, truthyQ, memCfg, lookupRates, rateMem, pythonRound2, roundHalfEven, qabs, hf,
      show (("IT12345678901" : String) = "") = False by simp +decide,
      show (("IT" : String) = String.mk ['I', 'T']) = True by simp +decide]
  · norm_num [pythonRound2, roundHalfEven, qabs, hf]

/-- C5 amended: when the preceding checks pass, the textract evaluator
computes `expected = round(net_total * vat_rate, 2)` and appends a
math-mismatch reason citing expected and declared amounts, with `FAIL`,
exactly when `|expected − vat_amount|` exceeds `0.02` — but only when
`net_total` is present and non-zero; the ocr evaluator runs the same check
with tolerance `0.5`. On `net_total = 100`, `vat_rate = 0.22`,
`vat_amount = 30`, both evaluators return `FAIL` citing expected `22`. -/
theorem c5_math_check_tolerances :
    (∀ (id : String) (r a n : ℚ) (cfg : Config) (c : String),
      Textract.matchCountry (Textract.vidOf (some id)) = some c →
      memCfg cfg c = true →
      rateMem (some r) ((lookupRates cfg c).getD []) = true →
      n ≠ 0 →
      Textract.validate (some id) (some r) (some a) (some n) cfg =
        (if (2 / 100 : ℚ) < qabs (pythonRound2 (n * r) - a) then
          ⟨"FAIL", [Reason.mathCheckFailed (pythonRound2 (n * r)) a]⟩
        else ⟨"PASS", []⟩)) ∧
    (∀ (id : String) (r a n : ℚ) (cfg : Config) (c : String),
      id ≠ "" →
      Ocr.countryOf (some id) = some c →
      memCfg cfg c = true →
      rateMem (some r) ((lookupRates cfg c).getD []) = true →
      r ≠ 0 → a ≠ 0 → n ≠ 0 →
      Ocr.validate (some id) (some r) (some a) (some n) cfg =
        (if (1 / 2 : ℚ) < qabs (pythonRound2 (n * r) - a) then
          ⟨"FAIL", [Reason.mathCheckFailed (pythonRound2 (n * r)) a]⟩
        else ⟨"PASS", []⟩)) ∧
    Textract.validate (some "IT12345678901") (some (0.22 : ℚ)) (some 30) (some 100)
      [("IT", [(0.04 : ℚ), 0.10, 0.22])] = ⟨"FAIL", [Reason.mathCheckFailed 22 30]⟩ ∧
    Ocr.validate (some "IT12345678901") (some (0.22 : ℚ)) (some 30) (some 100)
      [("IT", [(0.04 : ℚ), 0.10, 0.22])] = ⟨"FAIL", [Reason.mathCheckFailed 22 30]⟩ := by
  have hf : Rat.floor 2200 = 2200 := rfl
  refine ⟨?_, ?_, ?_, ?_⟩
  · intro id r a n cfg c hc hmem hrate hn
    have hbase : Textract.baseChecks (some id) (some r) (some a) cfg = ⟨"PASS", []⟩ := by
      unfold Textract.baseChecks
      dsimp only
      rw [hc]
      simp [hmem, hrate]
    unfold Textract.validate
    rw [hbase]
    unfold Textract.mathCheck
    simp [truthyQ, hn]
  · intro id r a n cfg c hid hc hmem hrate hr ha hn
    have h1 : Ocr.check1 (some id) (some r) (some a) = ⟨"PASS", []⟩ := by
      unfold Ocr.check1
      simp [truthyS, truthyQ, hid, hr, ha]
    have h2 : Ocr.check2 (some id) (some r) cfg ⟨"PASS", []⟩ = ⟨"PASS", []⟩ := by
      unfold Ocr.check2
      dsimp only
      rw [hc]
      simp [Ocr.ratesFor, hc, hmem, hrate]
    unfold Ocr.validate
    rw [h1, h2]
    unfold Ocr.check3
    simp [truthyQ, hr, ha, hn]
  · have hbase : Textract.baseChecks (some "IT12345678901") (some (0.22 : ℚ)) (some 30)
        [("IT", [(0.04 : ℚ), 0.10, 0.22])] = ⟨"PASS", []⟩ := by
      rw [show Textract.baseChecks (some "IT12345678901") (some (0.22 : ℚ)) (some 30)
          [("IT", [(0.04 : ℚ), 0.10, 0.22])] =
          (if Option.isSome (some (0.22 : ℚ)) ∧ Option.isSome (some (30 : ℚ)) then
            if memCfg [("IT", [(0.04 : ℚ), 0.10, 0.22])] "IT" then
              if rateMem (some (0.22 : ℚ))
                  ((lookupRates [("IT", [(0.04 : ℚ), 0.10, 0.22])] "IT").getD []) then
                ⟨"PASS", []⟩
              else ⟨"FAIL", [Reason.invalidRateForCountry ((some (0.22 : ℚ)).getD 0) "IT"]⟩
            else ⟨"FAIL", [Reason.countryNotInConfig "IT"]⟩
          else ⟨"FAIL", [Reason.missingRateOrAmount]⟩) from rfl]
      norm_num [memCfg, lookupRates, rateMem]
    simp only [Textract.validate, hbase, Textract.mathCheck]
    norm_num [truthyQ, pythonRound2, roundHalfEven, qabs, hf]
  · norm_num [Ocr.validate, Ocr.check1, Ocr.check2, Ocr.check3, Ocr.countryOf, Ocr.ratesFor,
      truthyS, truthyQ, memCfg, lookupRates, rateMem, pythonRound2, roundHalfEven, qabs, hf,
      show (("IT12345678901" : String) = "") = False by simp +decide,
      show (("IT" : String) = String.mk ['I', 'T']) = True by simp +decide]

/-- C5 witness: the two general tolerance statements instantiated at the
concrete invoice `net_total = 100`, `vat_rate = 0.22`, `vat_amount = 30`,
country `"IT"` with allowed rates `{0.04, 0.10, 0.22}`. -/
theorem c5_math_check_tolerances_witness :
    Textract.validate (some "IT12345678901") (some (0.22 : ℚ)) (some 30) (some 100)
      [("IT", [(0.04 : ℚ), 0.10, 0.22])] =
      (if (2 / 100 : ℚ) < qabs (pythonRound2 (100 * (0.22 : ℚ)) - 30) then
        ⟨"FAIL", [Reason.mathCheckFailed (pythonRound2 (100 * (0.22 : ℚ))) 30]⟩
      else ⟨"PASS", []⟩) ∧
    Ocr.validate (some "IT12345678901") (some (0.22 : ℚ)) (some 30) (some 100)
      [("IT", [(0.04 : ℚ), 0.10, 0.22])] =
      (if (1 / 2 : ℚ) < qabs (pythonRound2 (100 * (0.22 : ℚ)) - 30) then
        ⟨"FAIL", [Reason.mathCheckFailed (pythonRound2 (100 * (0.22 : ℚ))) 30]⟩
      else ⟨"PASS", []⟩) := by
  constructor
  · exact c5_math_check_tolerances.1 "IT12345678901" 0.22 30 100
      [("IT", [(0.04 : ℚ), 0.10, 0.22])] "IT" (by decide) (by decide)
      (by norm_num [rateMem, lookupRates]) (by norm_num)
  · exact c5_math_check_tolerances.2.1 "IT12345678901" 0.22 30 100
      [("IT", [(0.04 : ℚ), 0.10, 0.22])] "IT" (by decide) (by decide) (by decide)
      (by norm_num [rateMem, lookupRates]) (by norm_num) (by norm_num) (by norm_num)

/-! ## Claim C6: unknown country handling -/

/-- C6 counterexample: an invoice whose resolved country `"XX"` is not a
config key does not always get a "country not in configuration" reason:
with the VAT rate missing, the textract evaluator's `elif` chain reports
only the missing-field reason, and the ocr evaluator never has a country
reason at all — it reports its combined invalid-rate reason. -/
theorem c6_country_reason_cex :
    Textract.validate (some "XX123") none (some 22) (some 100) [("IT", [(0.22 : ℚ)])] =
      ⟨"FAIL", [Reason.missingRateOrAmount]⟩ ∧
    Textract.matchCountry (Textract.vidOf (some "XX123")) = some "XX" ∧
    memCfg [("IT", [(0.22 : ℚ)])] "XX" = false ∧
    Ocr.validate (some "XX123") (some (0.22 : ℚ)) (some 22) (some 100) [("IT", [(0.22 : ℚ)])] =
      ⟨"FAIL", [Reason.invalidRateOcr (some (0.22 : ℚ)) (some "XX")]⟩ := by
  have hf : Rat.floor 2200 = 2200 := rfl
  refine ⟨rfl, rfl, rfl, ?_⟩
  norm_num [Ocr.validate, Ocr.check1, Ocr.check2, Ocr.check3, Ocr.countryOf, Ocr.ratesFor,
    truthyS, truthyQ, memCfg, lookupRates, rateMem, pythonRound2, roundHalfEven, qabs, hf,
    show (("XX123" : String) = "") = False by simp +decide,
    show (("IT" : String) = String.mk ['X', 'X']) = False by simp +decide]

/-- C6 amended: in the textract evaluator, when the VAT id resolves to a
two-letter country, `vat_rate` and `vat_amount` are present and the country
is not a config key, the result is `FAIL` with exactly the
country-not-in-configuration reason — in particular the rate-membership
check contributes nothing; if rate or amount is missing the evaluator
reports the missing-field reason instead, and the ocr evaluator reports a
combined invalid-rate reason rather than a country reason. -/
theorem c6_country_not_in_config :
    ∀ (id : String) (r a : ℚ) (n : Option ℚ) (cfg : Config) (c : String),
      Textract.matchCountry (Textract.vidOf (some id)) = some c →
      memCfg cfg c = false →
      Textract.validate (some id) (some r) (some a) n cfg =
        ⟨"FAIL", [Reason.countryNotInConfig c]⟩ := by
  intro id r a n cfg c hc hmem
  have hbase : Textract.baseChecks (some id) (some r) (some a) cfg =
      ⟨"FAIL", [Reason.countryNotInConfig c]⟩ := by
    unfold Textract.baseChecks
    dsimp only
    rw [hc]
    simp [hmem]
  unfold Textract.validate
  rw [hbase]
  unfold Textract.mathCheck
  simp +decide

/-- C6 witness: the amended statement instantiated at an `"XX"` invoice
with rate and amount present and a config that only knows `"IT"`. -/
theorem c6_country_not_in_config_witness :
    Textract.validate (some "XX123") (some (0.22 : ℚ)) (some 22) (some 100)
      [("IT", [(0.22 : ℚ)])] = ⟨"FAIL", [Reason.countryNotInConfig "XX"]⟩ := by
  exact c6_country_not_in_config "XX123" 0.22 22 (some 100) [("IT", [(0.22 : ℚ)])] "XX"
    (by decide) (by decide)

/-! ## Claim C7: reasons empty iff PASS -/

/-- The textract `elif` chain yields an empty reasons list iff it passes. -/
theorem textract_base_inv (vid : Option String) (r a : Option ℚ) (cfg : Config) :
    ((Textract.baseChecks vid r a cfg).reasons = [] ↔
      (Textract.baseChecks vid r a cfg).status = "PASS") := by
  unfold Textract.baseChecks
  dsimp only
  split
  · simp +decide
  · split
    · split
      · split
        · simp
        · simp +decide
      · simp +decide
    · simp +decide

/-- The textract math check preserves the reasons/status invariant. -/
theorem textract_math_inv (r a n : Option ℚ) (base : EvalResult)
    (h : base.reasons = [] ↔ base.status = "PASS") :
    ((Textract.mathCheck r a n base).reasons = [] ↔
      (Textract.mathCheck r a n base).status = "PASS") := by
  unfold Textract.mathCheck
  dsimp only
  split
  · split
    · simp +decide
    · exact h
  · exact h

/-- The ocr completeness check establishes the reasons/status invariant. -/
theorem ocr_check1_inv (vid : Option String) (r a : Option ℚ) :
    ((Ocr.check1 vid r a).reasons = [] ↔ (Ocr.check1 vid r a).status = "PASS") := by
  unfold Ocr.check1
  split
  · simp
  · simp +decide

/-- The ocr country/rate check preserves the reasons/status invariant. -/
theorem ocr_check2_inv (vid : Option String) (vr : Option ℚ) (cfg : Config)
    (res : EvalResult) (h : res.reasons = [] ↔ res.status = "PASS") :
    ((Ocr.check2 vid vr cfg res).reasons = [] ↔ (Ocr.check2 vid vr cfg res).status = "PASS") := by
  unfold Ocr.check2
  dsimp only
  split
  · exact h
  · simp +decide

/-- The ocr math check preserves the reasons/status invariant. -/
theorem ocr_check3_inv (vr va nt : Option ℚ) (res : EvalResult)
    (h : res.reasons = [] ↔ res.status = "PASS") :
    ((Ocr.check3 vr va nt res).reasons = [] ↔ (Ocr.check3 vr va nt res).status = "PASS") := by
  unfold Ocr.check3
  dsimp only
  split
  · split
    · simp +decide
    · exact h
  · exact h

/-- C7: for every normalized invoice and configuration, both evaluators
return an empty reasons list exactly when the status is `PASS`. -/
theorem c7_reasons_empty_iff_pass :
    ∀ (vid : Option String) (r a n : Option ℚ) (cfg : Config),
      ((Textract.validate vid r a n cfg).reasons = [] ↔
        (Textract.validate vid r a n cfg).status = "PASS") ∧
      ((Ocr.validate vid r a n cfg).reasons = [] ↔
        (Ocr.validate vid r a n cfg).status = "PASS") := by
  intro vid r a n cfg
  exact ⟨textract_math_inv _ _ _ _ (textract_base_inv vid r a cfg),
    ocr_check3_inv _ _ _ _ (ocr_check2_inv _ _ _ _ (ocr_check1_inv vid r a))⟩

/-! ## Claim C8: configuration cache -/

/-- C8 counterexample: a successful load of an empty configuration caches
the empty dict, but the empty dict is falsy under `if CACHED_ALLOWED_RATES:`,
so the very next call fetches from the external source again and can return
a different mapping — caching is not once-per-process for an empty load. -/
theorem c8_empty_cache_reloads_cex :
    (Textract.load_allowed_rates none []).cache = some [] ∧
    (Textract.load_allowed_rates none []).fetched = true ∧
    (Textract.load_allowed_rates (Textract.load_allowed_rates none []).cache
        [("IT", mkRat 11 50)]).fetched = true ∧
    (Textract.load_allowed_rates (Textract.load_allowed_rates none []).cache
        [("IT", mkRat 11 50)]).rates = [("IT", [mkRat 11 50])] := by
  decide

/-- C8 amended: once a non-empty mapping has been loaded and cached, every
subsequent call returns the cached mapping without fetching from the
external source, whatever that source now holds; an empty cached mapping is
falsy and is fetched again on every call. -/
theorem c8_nonempty_cache_stable :
    ∀ (c : Config) (rows : List (String × ℚ)), c ≠ [] →
      Textract.load_allowed_rates (some c) rows = ⟨c, some c, false⟩ := by
  intro c rows hc
  simp [Textract.load_allowed_rates, Textract.truthyCache, hc]

/-- C8 witness: a cached one-country mapping is returned unchanged, with no
fetch, even though the external source has changed to a different table. -/
theorem c8_nonempty_cache_stable_witness :
    Textract.load_allowed_rates (some [("IT", [mkRat 11 50])]) [("DE", mkRat 19 100)] =
      ⟨[("IT", [mkRat 11 50])], some [("IT", [mkRat 11 50])], false⟩ := by
  exact c8_nonempty_cache_stable [("IT", [mkRat 11 50])] [("DE", mkRat 19 100)] (by decide)

/-! ## Claim C9: extract_currency returns one character -/

/-- C9: `extract_currency` only ever returns a single character (the regex
group is a one-character class match), and on `"CHF100"` that character is
`"F"`: `C` and `H` are rejected because each is followed by another letter,
while `F` is followed by a digit. -/
theorem c9_extract_currency_single_char :
    (∀ (s out : String), Textract.extract_currency s = some out → out.length = 1) ∧
    Textract.extract_currency "CHF100" = some "F" := by
  constructor
  · intro s out h
    obtain ⟨c, -, rfl⟩ := Option.map_eq_some'.mp h
    rfl
  · decide

/-- C9 witness: the single-character property instantiated on the `"CHF"`
abbreviation input, on which the extractor returns `"F"`. -/
theorem c9_extract_currency_single_char_witness :
    ("F" : String).length = 1 := by
  exact c9_extract_currency_single_char.1 "CHF100" "F" c9_extract_currency_single_char.2

/-! ## Claim C10: zero values conflated with absence -/

/-- C10: in the ocr evaluator an extracted `vat_rate` or `vat_amount` equal
to `0` triggers the missing-fields `FAIL` (truthiness), and a `net_total`
of `0` makes both evaluators skip the arithmetic check: no math-mismatch
reason can appear. -/
theorem c10_zero_is_treated_as_missing :
    ∀ (vid : Option String) (r a n : Option ℚ) (cfg : Config),
      (Ocr.validate vid (some 0) a n cfg).status = "FAIL" ∧
      Reason.missingRequiredFields ∈ (Ocr.validate vid (some 0) a n cfg).reasons ∧
      (Ocr.validate vid r (some 0) n cfg).status = "FAIL" ∧
      Reason.missingRequiredFields ∈ (Ocr.validate vid r (some 0) n cfg).reasons ∧
      hasMathReason (Ocr.validate vid r a (some 0) cfg).reasons = false ∧
      hasMathReason (Textract.validate vid r a (some 0) cfg).reasons = false := by
  intro vid r a n cfg
  have hr0 : ∀ (va : Option ℚ),
      Ocr.check1 vid (some 0) va = ⟨"FAIL", [Reason.missingRequiredFields]⟩ := by
    intro va
    unfold Ocr.check1
    simp [truthyQ]
  have ha0 : Ocr.check1 vid r (some 0) = ⟨"FAIL", [Reason.missingRequiredFields]⟩ := by
    unfold Ocr.check1
    simp [truthyQ]
  refine ⟨?_, ?_, ?_, ?_, ?_, ?_⟩
  · show (Ocr.check3 _ _ _ (Ocr.check2 _ _ _ (Ocr.check1 vid (some 0) a))).status = "FAIL"
    rw [hr0]
    exact ocr_check3_status_fail _ _ _ _ (ocr_check2_status_fail _ _ _ _ rfl)
  · show Reason.missingRequiredFields ∈
        (Ocr.check3 _ _ _ (Ocr.check2 _ _ _ (Ocr.check1 vid (some 0) a))).reasons
    rw [hr0]
    exact ocr_check3_mem _ _ _ _ _ (ocr_check2_mem _ _ _ _ _ (by simp))
  · show (Ocr.check3 _ _ _ (Ocr.check2 _ _ _ (Ocr.check1 vid r (some 0)))).status = "FAIL"
    rw [ha0]
    exact ocr_check3_status_fail _ _ _ _ (ocr_check2_status_fail _ _ _ _ rfl)
  · show Reason.missingRequiredFields ∈
        (Ocr.check3 _ _ _ (Ocr.check2 _ _ _ (Ocr.check1 vid r (some 0)))).reasons
    rw [ha0]
    exact ocr_check3_mem _ _ _ _ _ (ocr_check2_mem _ _ _ _ _ (by simp))
  · show hasMathReason (Ocr.check3 r a (some 0) _).reasons = false
    have h3 : ∀ res : EvalResult, Ocr.check3 r a (some 0) res = res := by
      intro res
      unfold Ocr.check3
      simp [truthyQ]
    rw [h3]
    unfold Ocr.check2
    dsimp only
    split
    · unfold Ocr.check1
      split <;> rfl
    · unfold Ocr.check1
      split <;> rfl
  · unfold Textract.validate Textract.mathCheck
    have h0 : truthyQ (some 0) = false := rfl
    simp only [h0, Bool.false_eq_true, and_false, if_false]
    unfold Textract.baseChecks
    dsimp only
    split
    · rfl
    · split
      · split
        · split <;> rfl
        · rfl
      · rfl
